import Mathlib

/-
Verification development for the giasuthongminh application core:
content fingerprinting (services/hashUtils), the persistent result store
(services/storageService.ts), file validation (services/fileUtils.ts),
the generation gateway (services/geminiService.ts) and the two pipeline
flows (processContent in the App of part_003, handleProcess in the App of
part_002).

Modelling conventions:
  * IndexedDB is modelled as a list of records plus explicit failure
    flags.  The TypeScript store functions wrap `openDB()` in try/catch
    but return the inner IDBRequest promise from inside the try block
    without awaiting it, so a rejection of the request itself escapes the
    catch.  The model therefore distinguishes `openFails` (caught and
    swallowed, as the catch block does) from the per-request failure
    flags (which surface as `Except.error`, as the un-awaited rejection
    does).
  * Asynchronous gateway calls are modelled as oracles: functions from
    the call inputs to an outcome, packaged in a `Gateway` record.
  * JavaScript numbers that are used as integers (timestamps, sizes,
    byte values, SHA-256 words) are modelled as `Nat`, with explicit
    `% 2 ^ 32` where 32-bit wrap-around matters.
-/

namespace GiaSu

/-! ## Data model (types.ts) -/

/-- VideoRecommendation from types.ts. -/
structure VideoRecommendation where
  title : String
  query : String
deriving DecidableEq, Repr

/-- SolutionItem from types.ts (imagePrompt / illustrationImage optional). -/
structure SolutionItem where
  questionDisplay : String
  questionReading : String
  solutionDisplay : String
  solutionReading : String
  imagePrompt : Option String
  illustrationImage : Option String
deriving DecidableEq, Repr

/-- ProcessingResult from types.ts; audioBase64 is string-or-null. -/
structure ProcessingResult where
  script : String
  audioBase64 : Option String
  relatedVideos : List VideoRecommendation
  solutions : List SolutionItem
deriving DecidableEq, Repr

/-- CachedItem from storageService.ts: the persisted envelope. -/
structure CachedItem where
  id : String
  timestamp : Nat
  data : ProcessingResult
deriving DecidableEq, Repr

/-- HistoryEntry from types.ts. -/
structure HistoryEntry where
  id : String
  timestamp : Nat
  title : String
deriving DecidableEq, Repr

/-! ## Persistent result store (services/storageService.ts) -/

/-- A storage-layer failure (IndexedDB error), the single error kind the
store can surface to a caller. -/
inductive StoreErr where
  | storeFailure
deriving DecidableEq, Repr

/-- State of the IndexedDB-backed store: the records plus failure flags.
`openFails` models `openDB()` rejecting (caught by every store function's
try/catch); the remaining flags model the individual IDBRequest erroring
(NOT caught, because the request promise is returned from inside the try
block without being awaited). -/
structure StoreEnv where
  recs : List CachedItem
  openFails : Bool
  getFails : Bool
  putFails : Bool
  deleteFails : Bool
  getAllFails : Bool
deriving DecidableEq, Repr

/-- Point lookup by id, as IndexedDB `store.get(hash)`. -/
def findRecord (recs : List CachedItem) (hash : String) : Option CachedItem :=
  recs.find? (fun it => it.id == hash)

/-- IndexedDB `store.put(item)` with keyPath id: overwrite the record
with the same id if present, otherwise add the record. -/
def putRecord : List CachedItem → CachedItem → List CachedItem
  | [], item => [item]
  | r :: rest, item =>
      if r.id == item.id then item :: rest else r :: putRecord rest item

/-- getFromCache from storageService.ts.  An `openDB` failure is caught
and the function resolves to null (modelled `Except.ok none`); a failure
of the get request itself rejects past the catch (modelled
`Except.error`); otherwise the looked-up record's data (or null). -/
def getFromCache (env : StoreEnv) (hash : String) :
    Except StoreErr (Option ProcessingResult) :=
  if env.openFails then Except.ok none
  else if env.getFails then Except.error StoreErr.storeFailure
  else Except.ok ((findRecord env.recs hash).map CachedItem.data)

/-- saveToCache from storageService.ts.  An `openDB` failure is caught
and swallowed (resolves void, store unchanged); a failure of the put
request rejects past the catch (modelled `Except.error`, transaction
aborted so the store is unchanged); otherwise the record
`{id := hash, timestamp := Date.now(), data := result}` is upserted. -/
def saveToCache (env : StoreEnv) (hash : String) (result : ProcessingResult)
    (now : Nat) : Except StoreErr StoreEnv :=
  if env.openFails then Except.ok env
  else if env.putFails then Except.error StoreErr.storeFailure
  else Except.ok
    ⟨putRecord env.recs ⟨hash, now, result⟩,
     env.openFails, env.getFails, env.putFails, env.deleteFails, env.getAllFails⟩

/-- deleteFromCache from storageService.ts, with the same failure
structure as saveToCache. -/
def deleteFromCache (env : StoreEnv) (id : String) : Except StoreErr StoreEnv :=
  if env.openFails then Except.ok env
  else if env.deleteFails then Except.error StoreErr.storeFailure
  else Except.ok
    ⟨env.recs.filter (fun it => it.id != id),
     env.openFails, env.getFails, env.putFails, env.deleteFails, env.getAllFails⟩

/-- First line of a script, as `script.split(a newline)[0]` in
getHistory: the characters before the first newline (the whole string
when it has no newline, empty for the empty string). -/
def firstLine (s : String) : String :=
  String.mk (s.data.takeWhile (fun c => c != '\n'))

/-- `substring(0, 60)`: the first 60 characters of a string. -/
def truncate60 (s : String) : String :=
  String.mk (s.data.take 60)

/-- Title construction in getHistory: first 60 characters of the first
line, with an ellipsis appended when the WHOLE script is longer than 60
characters (this is exactly what the source computes). -/
def mkTitle (script : String) : String :=
  truncate60 (firstLine script) ++ (if script.length > 60 then "..." else "")

/-- Map a stored record to the light-weight history entry, as the `map`
inside getHistory. -/
def toHistoryEntry (it : CachedItem) : HistoryEntry :=
  ⟨it.id, it.timestamp, mkTitle it.data.script⟩

/-- getHistory from storageService.ts: list all records, map to entries,
sort by timestamp descending (the comparator b.timestamp - a.timestamp,
a stable descending sort). -/
def getHistory (env : StoreEnv) : Except StoreErr (List HistoryEntry) :=
  if env.openFails then Except.ok []
  else if env.getAllFails then Except.error StoreErr.storeFailure
  else Except.ok
    ((env.recs.map toHistoryEntry).mergeSort
      (fun a b => decide (b.timestamp ≤ a.timestamp)))

/-- Written from the spec's words, for comparison with `mkTitle`: the
title is the first line of the script truncated to the fixed display
length, with an ellipsis marker appended exactly when the title was
truncated (that is, when the FIRST LINE is longer than 60 characters). -/
def specTitle (script : String) : String :=
  truncate60 (firstLine script) ++
    (if (firstLine script).length > 60 then "..." else "")

/-! ## Content fingerprinter (services/hashUtils: computeContentHash)

computeContentHash UTF-8-encodes the input string (TextEncoder), takes
its SHA-256 digest (crypto.subtle.digest) and hex-encodes every byte in
lowercase with zero padding.  SHA-256 is embedded below over `Nat`
bytes/words with explicit `% 2 ^ 32` reductions. -/

/-- UTF-8 encoding of a single code point (what TextEncoder emits per
character). -/
def utf8EncodeChar (n : Nat) : List Nat :=
  if n < 0x80 then [n]
  else if n < 0x800 then
    [0xC0 + n / 64, 0x80 + n % 64]
  else if n < 0x10000 then
    [0xE0 + n / 4096, 0x80 + n / 64 % 64, 0x80 + n % 64]
  else
    [0xF0 + n / 262144, 0x80 + n / 4096 % 64, 0x80 + n / 64 % 64, 0x80 + n % 64]

/-- TextEncoder().encode: the UTF-8 bytes of a string. -/
def utf8Bytes (s : String) : List Nat :=
  s.data.flatMap (fun c => utf8EncodeChar c.toNat)

/-- Rotate a 32-bit word right by n positions, reduced into 32 bits. -/
def rotr (x n : Nat) : Nat :=
  (x >>> n ||| x <<< (32 - n)) % 2 ^ 32

/-- The SHA-256 working state: eight 32-bit words. -/
structure Sha256State where
  a : Nat
  b : Nat
  c : Nat
  d : Nat
  e : Nat
  f : Nat
  g : Nat
  h : Nat
deriving DecidableEq, Repr

/-- SHA-256 initial hash value (FIPS 180-4), written in decimal. -/
def sha256Init : Sha256State :=
  ⟨1779033703, 3144134277, 1013904242, 2773480762,
   1359893119, 2600822924, 528734635, 1541459225⟩

/-- The 64 SHA-256 round constants (FIPS 180-4), written in decimal. -/
def sha256K : List Nat :=
  [1116352408, 1899447441, 3049323471, 3921009573, 961987163,
   1508970993, 2453635748, 2870763221, 3624381080, 310598401,
   607225278, 1426881987, 1925078388, 2162078206, 2614888103,
   3248222580, 3835390401, 4022224774, 264347078, 604807628,
   770255983, 1249150122, 1555081692, 1996064986, 2554220882,
   2821834349, 2952996808, 3210313671, 3336571891, 3584528711,
   113926993, 338241895, 666307205, 773529912, 1294757372,
   1396182291, 1695183700, 1986661051, 2177026350, 2456956037,
   2730485921, 2820302411, 3259730800, 3345764771, 3516065817,
   3600352804, 4094571909, 275423344, 430227734, 506948616,
   659060556, 883997877, 958139571, 1322822218, 1537002063,
   1747873779, 1955562222, 2024104815, 2227730452, 2361852424,
   2428436474, 2756734187, 3204031479, 3329325298]

/-- SHA-256 padding: append 0x80, zero bytes up to 56 mod 64, then the
bit length as an 8-byte big-endian integer. -/
def sha256Pad (msg : List Nat) : List Nat :=
  let bits := 8 * msg.length
  msg ++ 0x80 :: List.replicate ((119 - msg.length % 64) % 64) 0 ++
    [bits >>> 56 % 256, bits >>> 48 % 256, bits >>> 40 % 256, bits >>> 32 % 256,
     bits >>> 24 % 256, bits >>> 16 % 256, bits >>> 8 % 256, bits % 256]

/-- Pack bytes into 32-bit big-endian words. -/
def bytesToWords : List Nat → List Nat
  | b0 :: b1 :: b2 :: b3 :: rest =>
      (b0 * 2 ^ 24 + b1 * 2 ^ 16 + b2 * 2 ^ 8 + b3) % 2 ^ 32 :: bytesToWords rest
  | _ => []

/-- One extension step of the message schedule.  The argument list holds
the words produced so far, most recent first. -/
def scheduleStep (ws : List Nat) : List Nat :=
  let w2 := ws.getD 1 0
  let w7 := ws.getD 6 0
  let w15 := ws.getD 14 0
  let w16 := ws.getD 15 0
  let s0 := rotr w15 7 ^^^ rotr w15 18 ^^^ w15 >>> 3
  let s1 := rotr w2 17 ^^^ rotr w2 19 ^^^ w2 >>> 10
  (w16 + s0 + w7 + s1) % 2 ^ 32 :: ws

/-- The 64-word message schedule of one block (words given in order). -/
def sha256Schedule (first16 : List Nat) : List Nat :=
  ((List.range 48).foldl (fun ws _ => scheduleStep ws) first16.reverse).reverse

/-- One SHA-256 compression round. -/
def sha256Round (st : Sha256State) (wk : Nat × Nat) : Sha256State :=
  let s1 := rotr st.e 6 ^^^ rotr st.e 11 ^^^ rotr st.e 25
  let ch := (st.e &&& st.f) ^^^ ((0xffffffff ^^^ st.e) &&& st.g)
  let temp1 := (st.h + s1 + ch + wk.2 + wk.1) % 2 ^ 32
  let s0 := rotr st.a 2 ^^^ rotr st.a 13 ^^^ rotr st.a 22
  let maj := (st.a &&& st.b) ^^^ (st.a &&& st.c) ^^^ (st.b &&& st.c)
  let temp2 := (s0 + maj) % 2 ^ 32
  ⟨(temp1 + temp2) % 2 ^ 32, st.a, st.b, st.c,
   (st.d + temp1) % 2 ^ 32, st.e, st.f, st.g⟩

/-- Process one 64-byte block: run the 64 rounds and add the result to
the incoming state. -/
def sha256Block (st : Sha256State) (block : List Nat) : Sha256State :=
  let ws := sha256Schedule (bytesToWords block)
  let t := (ws.zip sha256K).foldl sha256Round st
  ⟨(st.a + t.a) % 2 ^ 32, (st.b + t.b) % 2 ^ 32, (st.c + t.c) % 2 ^ 32,
   (st.d + t.d) % 2 ^ 32, (st.e + t.e) % 2 ^ 32, (st.f + t.f) % 2 ^ 32,
   (st.g + t.g) % 2 ^ 32, (st.h + t.h) % 2 ^ 32⟩

/-- Process `fuel` blocks of 64 bytes off the front of the message. -/
def sha256Blocks : Nat → Sha256State → List Nat → Sha256State
  | 0, st, _ => st
  | fuel + 1, st, msg => sha256Blocks fuel (sha256Block st (msg.take 64)) (msg.drop 64)

/-- Serialize one 32-bit word as 4 big-endian bytes. -/
def wordToBytes (w : Nat) : List Nat :=
  [w >>> 24 % 256, w >>> 16 % 256, w >>> 8 % 256, w % 256]

/-- Serialize the final state as the 32 digest bytes. -/
def stateToBytes (st : Sha256State) : List Nat :=
  wordToBytes st.a ++ wordToBytes st.b ++ wordToBytes st.c ++ wordToBytes st.d ++
    wordToBytes st.e ++ wordToBytes st.f ++ wordToBytes st.g ++ wordToBytes st.h

/-- SHA-256 digest (32 bytes) of a byte sequence. -/
def sha256 (msg : List Nat) : List Nat :=
  let padded := sha256Pad msg
  stateToBytes (sha256Blocks (padded.length / 64) sha256Init padded)

/-- One lowercase hexadecimal digit, as `b.toString(16)` produces. -/
def hexDigit (n : Nat) : Char :=
  match n with
  | 0 => '0' | 1 => '1' | 2 => '2' | 3 => '3'
  | 4 => '4' | 5 => '5' | 6 => '6' | 7 => '7'
  | 8 => '8' | 9 => '9' | 10 => 'a' | 11 => 'b'
  | 12 => 'c' | 13 => 'd' | 14 => 'e' | _ => 'f'

/-- `b.toString(16).padStart(2, zero)` for a byte: exactly two lowercase
hex digits. -/
def byteToHex (b : Nat) : List Char :=
  [hexDigit (b / 16 % 16), hexDigit (b % 16)]

/-- computeContentHash from services/hashUtils: UTF-8 encode, SHA-256,
hex-encode each byte with zero padding and join. -/
def computeContentHash (content : String) : String :=
  String.mk ((sha256 (utf8Bytes content)).flatMap byteToHex)

/-! ## File validation (services/fileUtils.ts) -/

/-- The relevant observable fields of a browser File object. -/
structure UploadedFile where
  type : String
  size : Nat
deriving DecidableEq, Repr

/-- validTypes from validateFile in fileUtils.ts. -/
def validTypes : List String :=
  ["application/pdf",
   "image/jpeg",
   "image/png",
   "image/webp",
   "application/vnd.openxmlformats-officedocument.wordprocessingml.document",
   "application/msword"]

/-- validateFile from fileUtils.ts: null means accepted, a string is the
user-facing rejection message. -/
def validateFile (file : UploadedFile) : Option String :=
  if !(validTypes.contains file.type) then
    some "Định dạng file không được hỗ trợ. Vui lòng sử dụng PDF, Hình ảnh hoặc Word."
  else if file.size > 20 * 1024 * 1024 then
    some "Kích thước file quá lớn (Tối đa 20MB)."
  else none

/-! ## Generation gateway (services/geminiService.ts)

The four remote generation operations are external collaborators; they
are modelled as oracles packaged in a `Gateway` record: pure functions
from the call inputs to the outcome the remote call would produce. -/

/-- The dual-script payload produced by transcription. -/
structure DualScriptResponse where
  displayScript : String
  readingScript : String
deriving DecidableEq, Repr

/-- Inputs of generateReadingScript: the text input plus the optional
file content and MIME type. -/
structure TranscriptionInput where
  textInput : String
  fileBase64 : Option String
  mimeType : Option String
deriving DecidableEq, Repr

/-- What one model call behind callGeminiWithPrompt can produce: a
parsed dual script, a content-policy block (finishReason SAFETY or
RECITATION), a response without text, or an ordinary thrown error. -/
inductive AttemptOutcome where
  | ok (value : DualScriptResponse)
  | blocked
  | noText
  | threw
deriving DecidableEq, Repr

/-- The gateway oracles: the outcome of transcription strategy 1 (the
strict OCR prompt), of transcription strategy 2 (the safe paraphrase
prompt), of speech synthesis on a reading script, of the video-query
suggestion call, and of the solver call.  `none` for the last three
means the call failed or returned no text. -/
structure Gateway where
  attempt1 : TranscriptionInput → AttemptOutcome
  attempt2 : TranscriptionInput → AttemptOutcome
  synthRaw : String → Option String
  suggestRaw : String → Option (List VideoRecommendation)
  solveRaw : String → Option (List SolutionItem)

/-- callGeminiWithPrompt from geminiService.ts: returns the parsed dual
script, and null on a SAFETY or RECITATION block, on a response without
text, and on a thrown error alike — the three null sources are
indistinguishable to the caller. -/
def callGeminiWithPrompt (outcome : AttemptOutcome) : Option DualScriptResponse :=
  match outcome with
  | AttemptOutcome.ok v => some v
  | AttemptOutcome.blocked => none
  | AttemptOutcome.noText => none
  | AttemptOutcome.threw => none

/-- The distinguishable error kinds a pipeline run can end in. -/
inductive PipelineError where
  | transcriptionFailed
  | synthesisFailed
  | storeFailure
deriving DecidableEq, Repr

/-- generateReadingScript from services/geminiService.ts: attempt
strategy 1; when it yields null retry exactly once with strategy 2; when
both yield null, throw the terminal transcription-failed error. -/
def generateReadingScript (gw : Gateway) (inp : TranscriptionInput) :
    Except PipelineError DualScriptResponse :=
  match callGeminiWithPrompt (gw.attempt1 inp) with
  | some r => Except.ok r
  | none =>
    match callGeminiWithPrompt (gw.attempt2 inp) with
    | some r => Except.ok r
    | none => Except.error PipelineError.transcriptionFailed

/-- How many transcription strategies generateReadingScript attempts:
one when strategy 1 yields a result, two otherwise. -/
def transcribeAttemptCount (gw : Gateway) (inp : TranscriptionInput) : Nat :=
  match callGeminiWithPrompt (gw.attempt1 inp) with
  | some _ => 1
  | none => 2

/-- synthesizeSpeech from geminiService.ts: the audio payload, or a
thrown terminal error when the call fails or returns no audio. -/
def synthesizeSpeech (gw : Gateway) (script : String) :
    Except PipelineError String :=
  match gw.synthRaw script with
  | some a => Except.ok a
  | none => Except.error PipelineError.synthesisFailed

/-- getRelatedVideoQueries from geminiService.ts: the suggestions, and
the empty list when the call fails or returns no text (the catch block
returns an empty array). -/
def getRelatedVideoQueries (gw : Gateway) (script : String) :
    List VideoRecommendation :=
  match gw.suggestRaw script with
  | some vs => vs
  | none => []

/-- analyzeAndSolve from geminiService.ts: the solution items, and the
empty list when the call fails or returns no text (the catch block
returns an empty array). -/
def analyzeAndSolve (gw : Gateway) (script : String) : List SolutionItem :=
  match gw.solveRaw script with
  | some items => items
  | none => []

/-! ## Pipeline orchestration (processContent in part_003, handleProcess
in part_002) -/

/-- A user submission: pasted text, or an uploaded file already read to
base64 with its MIME type. -/
inductive UserInput where
  | text (t : String)
  | file (base64 : String) (mime : String)
deriving DecidableEq, Repr

/-- Gateway operations invoked during one pipeline run. -/
structure CallCounts where
  transcribeAttempts : Nat
  solveCalls : Nat
  suggestCalls : Nat
  synthCalls : Nat
deriving DecidableEq, Repr

/-- The trace of a run that never reached the gateway. -/
def noCalls : CallCounts := ⟨0, 0, 0, 0⟩

/-- How one pipeline run ends: the guard rejected the submission before
any state change, or the run finished with a result (flagged when served
from the cache), or a fatal error terminated it. -/
inductive RunOutcome where
  | notStarted
  | done (result : ProcessingResult) (wasCacheHit : Bool)
  | failed (e : PipelineError)
deriving DecidableEq, Repr

/-- Everything observable about one pipeline run: its outcome, the store
it leaves behind, and the gateway operations it invoked. -/
structure RunResult where
  outcome : RunOutcome
  store : StoreEnv
  calls : CallCounts
deriving DecidableEq, Repr

/-- What processContent (part_003) fingerprints: the trimmed text, or
the base64 file content. -/
def hashInput : UserInput → String
  | UserInput.text t => t.trim
  | UserInput.file b64 _ => b64

/-- What handleProcess (part_002) fingerprints: the raw text (NOT
trimmed), or the base64 file content. -/
def hashInputRaw : UserInput → String
  | UserInput.text t => t
  | UserInput.file b64 _ => b64

/-- The transcription call inputs both flows build: the raw text for a
text submission, the file payload for a file submission. -/
def transcriptionInputOf : UserInput → TranscriptionInput
  | UserInput.text t => ⟨t, none, none⟩
  | UserInput.file b64 mime => ⟨"", some b64, some mime⟩

/-- handleProcess's guard: a text submission must be non-blank (a file
submission is present by construction here). -/
def inputNonEmpty : UserInput → Bool
  | UserInput.text t => !(t.trim == "")
  | UserInput.file _ _ => true

/-- The generation phase shared by both flows, entered after the
fingerprint was computed: probe the cache and on a hit yield the stored
result unchanged; on a miss transcribe (with the single strategy
fallback inside generateReadingScript), solve, suggest and synthesize —
solve and suggest degrade to empty lists inside the service layer, and a
synthesis failure is fatal — then assemble the result, persist it and
yield it.  processContent (part_003) awaits the three generation calls
with one Promise.all, handleProcess (part_002) awaits them in sequence;
either way each is invoked exactly once and a fatal stage aborts the run
before the save.  A cache probe or save whose IndexedDB request errors
rejects into the flow's catch block and fails the run. -/
def runPipeline (gw : Gateway) (env : StoreEnv) (input : UserInput)
    (contentHash : String) (now : Nat) : RunResult :=
  match getFromCache env contentHash with
  | Except.error _ => ⟨RunOutcome.failed PipelineError.storeFailure, env, noCalls⟩
  | Except.ok (some cached) => ⟨RunOutcome.done cached true, env, noCalls⟩
  | Except.ok none =>
    match generateReadingScript gw (transcriptionInputOf input) with
    | Except.error e =>
        ⟨RunOutcome.failed e, env,
         ⟨transcribeAttemptCount gw (transcriptionInputOf input), 0, 0, 0⟩⟩
    | Except.ok ds =>
      match synthesizeSpeech gw ds.readingScript with
      | Except.error e =>
          ⟨RunOutcome.failed e, env,
           ⟨transcribeAttemptCount gw (transcriptionInputOf input), 1, 1, 1⟩⟩
      | Except.ok aud =>
        match saveToCache env contentHash
            ⟨ds.displayScript, some aud,
             getRelatedVideoQueries gw ds.displayScript,
             analyzeAndSolve gw ds.displayScript⟩ now with
        | Except.error _ =>
            ⟨RunOutcome.failed PipelineError.storeFailure, env,
             ⟨transcribeAttemptCount gw (transcriptionInputOf input), 1, 1, 1⟩⟩
        | Except.ok env2 =>
            ⟨RunOutcome.done
              ⟨ds.displayScript, some aud,
               getRelatedVideoQueries gw ds.displayScript,
               analyzeAndSolve gw ds.displayScript⟩ false, env2,
             ⟨transcribeAttemptCount gw (transcriptionInputOf input), 1, 1, 1⟩⟩

/-- processContent from the App in part_003: fingerprint the trimmed
text or the file content, then run the generation phase.  It has no
emptiness guard. -/
def processContent (gw : Gateway) (env : StoreEnv) (input : UserInput)
    (now : Nat) : RunResult :=
  runPipeline gw env input (computeContentHash (hashInput input)) now

/-- handleProcess from the App in part_002: return without doing
anything on a blank text submission, otherwise fingerprint the raw text
or the file content and run the generation phase. -/
def handleProcess (gw : Gateway) (env : StoreEnv) (input : UserInput)
    (now : Nat) : RunResult :=
  match inputNonEmpty input with
  | true => runPipeline gw env input (computeContentHash (hashInputRaw input)) now
  | false => ⟨RunOutcome.notStarted, env, noCalls⟩

/-! ## Concrete instances used by witnesses and counterexamples -/

/-- A fixed dual script. -/
def dsOkay : DualScriptResponse := ⟨"display", "reading"⟩

/-- A fixed solution item. -/
def solOkay : SolutionItem := ⟨"q", "qr", "sol", "solr", none, none⟩

/-- A gateway whose every operation succeeds. -/
def gwAllGood : Gateway :=
  ⟨fun _ => AttemptOutcome.ok dsOkay, fun _ => AttemptOutcome.ok dsOkay,
   fun _ => some "QUJD", fun _ => some [⟨"video", "query"⟩],
   fun _ => some [solOkay]⟩

/-- A gateway whose first transcription strategy throws an ordinary
error (no content-policy rejection) and whose second succeeds. -/
def gwPrimaryThrew : Gateway :=
  ⟨fun _ => AttemptOutcome.threw, fun _ => AttemptOutcome.ok dsOkay,
   fun _ => none, fun _ => none, fun _ => none⟩

/-- A gateway on which both transcription strategies fail. -/
def gwBothFail : Gateway :=
  ⟨fun _ => AttemptOutcome.threw, fun _ => AttemptOutcome.blocked,
   fun _ => none, fun _ => none, fun _ => none⟩

/-- A gateway where transcription and synthesis succeed but the solver
and the suggestion call both fail. -/
def gwNoExtras : Gateway :=
  ⟨fun _ => AttemptOutcome.ok dsOkay, fun _ => AttemptOutcome.ok dsOkay,
   fun _ => some "QUJD", fun _ => none, fun _ => none⟩

/-- A healthy empty store. -/
def envEmpty : StoreEnv := ⟨[], false, false, false, false, false⟩

/-- A fixed file submission (no trimming is involved for files). -/
def inputFile : UserInput := UserInput.file "Zm9v" "application/pdf"

/-- A healthy store already holding a record under `inputFile`'s
fingerprint. -/
def envHit : StoreEnv :=
  ⟨[⟨computeContentHash "Zm9v", 0, ⟨"cached", some "AA", [], []⟩⟩],
   false, false, false, false, false⟩

/-! ## Lemmas about the fingerprinter -/

/-- The sixteen lowercase hexadecimal digits. -/
def hexLowerDigits : List Char :=
  "0123456789abcdef".data

theorem hexDigit_mem (n : Nat) : hexDigit n ∈ hexLowerDigits := by
  unfold hexDigit
  split <;> decide

theorem length_flatMap_byteToHex (l : List Nat) :
    (l.flatMap byteToHex).length = 2 * l.length := by
  induction l with
  | nil => simp
  | cons b rest ih => simp [byteToHex, ih]; omega

theorem mem_flatMap_byteToHex {c : Char} {l : List Nat}
    (hc : c ∈ l.flatMap byteToHex) : c ∈ hexLowerDigits := by
  rcases List.mem_flatMap.mp hc with ⟨b, _, hb⟩
  simp only [byteToHex, List.mem_cons, List.not_mem_nil, or_false] at hb
  rcases hb with h | h <;> subst h <;> exact hexDigit_mem _

theorem sha256_length (msg : List Nat) : (sha256 msg).length = 32 := by
  simp [sha256, stateToBytes, wordToBytes]

/-- A pinned test vector: the embedded SHA-256 digest of the three-byte
string produces the standard published value. -/
theorem computeContentHash_testVector :
    computeContentHash "abc" =
      "ba7816bf8f01cfea414140de5dae2223b00361a396177a9cb410ff61f20015ad" := by
  decide

/-! ## Lemmas about the store -/

theorem findRecord_putRecord (recs : List CachedItem) (item : CachedItem) :
    findRecord (putRecord recs item) item.id = some item := by
  induction recs with
  | nil => simp [putRecord, findRecord]
  | cons r rest ih =>
    by_cases h : r.id == item.id
    · simp [putRecord, findRecord, h]
    · simp only [putRecord, h, if_false, Bool.false_eq_true]
      simpa [findRecord, List.find?_cons, h] using ih

theorem findRecord_filter_ne (recs : List CachedItem) (id : String) :
    findRecord (recs.filter (fun it => it.id != id)) id = none := by
  refine List.find?_eq_none.mpr ?_
  intro x hx
  have := (List.mem_filter.mp hx).2
  simpa [bne] using this

theorem filter_ne_of_not_found (recs : List CachedItem) (id : String)
    (h : findRecord recs id = none) :
    recs.filter (fun it => it.id != id) = recs := by
  refine List.filter_eq_self.mpr ?_
  intro x hx
  have hb := List.find?_eq_none.mp h x hx
  simpa [bne] using hb

/-! ## Lemmas about the pipeline -/

theorem runPipeline_cache_hit (gw : Gateway) (env : StoreEnv) (input : UserInput)
    (hash : String) (now : Nat) (r : ProcessingResult)
    (hhit : getFromCache env hash = Except.ok (some r)) :
    runPipeline gw env input hash now = ⟨RunOutcome.done r true, env, noCalls⟩ := by
  unfold runPipeline
  rw [hhit]

theorem runPipeline_done_new (gw : Gateway) (env : StoreEnv) (input : UserInput)
    (hash : String) (now : Nat) (res : ProcessingResult) (st : StoreEnv)
    (cc : CallCounts)
    (hopen : env.openFails = false) (hput : env.putFails = false)
    (hrun : runPipeline gw env input hash now = ⟨RunOutcome.done res false, st, cc⟩) :
    st = ⟨putRecord env.recs ⟨hash, now, res⟩, env.openFails, env.getFails,
      env.putFails, env.deleteFails, env.getAllFails⟩ := by
  unfold runPipeline at hrun
  cases hc : getFromCache env hash with
  | error e => rw [hc] at hrun; simp at hrun
  | ok o =>
    cases o with
    | some cached => rw [hc] at hrun; simp at hrun
    | none =>
      rw [hc] at hrun
      simp only [] at hrun
      cases hg : generateReadingScript gw (transcriptionInputOf input) with
      | error e => rw [hg] at hrun; simp at hrun
      | ok ds =>
        rw [hg] at hrun
        simp only [] at hrun
        cases hs : synthesizeSpeech gw ds.readingScript with
        | error e => rw [hs] at hrun; simp at hrun
        | ok aud =>
          rw [hs] at hrun
          simp only [] at hrun
          rw [saveToCache, hopen, hput] at hrun
          simp at hrun
          obtain ⟨hres, hst, -⟩ := hrun
          rw [← hst, ← hres, hopen, hput]

theorem runPipeline_resubmit (gw gw2 : Gateway) (env : StoreEnv)
    (input input2 : UserInput) (hash : String) (now now2 : Nat)
    (res : ProcessingResult) (st : StoreEnv) (cc : CallCounts)
    (hopen : env.openFails = false) (hget : env.getFails = false)
    (hput : env.putFails = false)
    (hrun : runPipeline gw env input hash now = ⟨RunOutcome.done res false, st, cc⟩) :
    runPipeline gw2 st input2 hash now2 = ⟨RunOutcome.done res true, st, noCalls⟩ := by
  have hst := runPipeline_done_new gw env input hash now res st cc hopen hput hrun
  have hhit : getFromCache st hash = Except.ok (some res) := by
    rw [hst]
    simp [getFromCache, hopen, hget, findRecord_putRecord env.recs ⟨hash, now, res⟩]
  exact runPipeline_cache_hit gw2 st input2 hash now2 res hhit

theorem runPipeline_transcription_failed (gw : Gateway) (env : StoreEnv)
    (input : UserInput) (hash : String) (now : Nat)
    (hmiss : getFromCache env hash = Except.ok none)
    (h1 : callGeminiWithPrompt (gw.attempt1 (transcriptionInputOf input)) = none)
    (h2 : callGeminiWithPrompt (gw.attempt2 (transcriptionInputOf input)) = none) :
    runPipeline gw env input hash now =
      ⟨RunOutcome.failed PipelineError.transcriptionFailed, env, ⟨2, 0, 0, 0⟩⟩ := by
  unfold runPipeline
  rw [hmiss]
  simp [generateReadingScript, transcribeAttemptCount, h1, h2]

theorem runPipeline_synthesis_failed (gw : Gateway) (env : StoreEnv)
    (input : UserInput) (hash : String) (now : Nat) (ds : DualScriptResponse)
    (htr : generateReadingScript gw (transcriptionInputOf input) = Except.ok ds)
    (hmiss : getFromCache env hash = Except.ok none)
    (hsy : gw.synthRaw ds.readingScript = none) :
    runPipeline gw env input hash now =
      ⟨RunOutcome.failed PipelineError.synthesisFailed, env,
        ⟨transcribeAttemptCount gw (transcriptionInputOf input), 1, 1, 1⟩⟩ := by
  unfold runPipeline
  rw [hmiss, htr]
  simp [synthesizeSpeech, hsy]

theorem runPipeline_success (gw : Gateway) (env : StoreEnv) (input : UserInput)
    (hash : String) (now : Nat) (ds : DualScriptResponse) (aud : String)
    (hopen : env.openFails = false) (hput : env.putFails = false)
    (hmiss : getFromCache env hash = Except.ok none)
    (htr : generateReadingScript gw (transcriptionInputOf input) = Except.ok ds)
    (hsy : gw.synthRaw ds.readingScript = some aud) :
    runPipeline gw env input hash now =
      ⟨RunOutcome.done ⟨ds.displayScript, some aud,
          getRelatedVideoQueries gw ds.displayScript,
          analyzeAndSolve gw ds.displayScript⟩ false,
        ⟨putRecord env.recs ⟨hash, now, ⟨ds.displayScript, some aud,
            getRelatedVideoQueries gw ds.displayScript,
            analyzeAndSolve gw ds.displayScript⟩⟩,
         env.openFails, env.getFails, env.putFails, env.deleteFails,
         env.getAllFails⟩,
        ⟨transcribeAttemptCount gw (transcriptionInputOf input), 1, 1, 1⟩⟩ := by
  unfold runPipeline
  rw [hmiss, htr]
  simp [synthesizeSpeech, hsy, saveToCache, hopen, hput]

theorem runPipeline_call_bounds (gw : Gateway) (env : StoreEnv)
    (input : UserInput) (hash : String) (now : Nat) :
    (runPipeline gw env input hash now).calls.transcribeAttempts ≤ 2 ∧
    (runPipeline gw env input hash now).calls.solveCalls ≤ 1 ∧
    (runPipeline gw env input hash now).calls.suggestCalls ≤ 1 ∧
    (runPipeline gw env input hash now).calls.synthCalls ≤ 1 := by
  have hn : transcribeAttemptCount gw (transcriptionInputOf input) ≤ 2 := by
    unfold transcribeAttemptCount
    split <;> omega
  unfold runPipeline
  cases hc : getFromCache env hash with
  | error e => simp [noCalls]
  | ok o =>
    cases o with
    | some cached => simp [noCalls]
    | none =>
      simp only []
      cases hg : generateReadingScript gw (transcriptionInputOf input) with
      | error e => simpa using hn
      | ok ds =>
        simp only [hg]
        cases hs : synthesizeSpeech gw ds.readingScript with
        | error e => simpa using hn
        | ok aud =>
          simp only []
          cases hsv : saveToCache env hash ⟨ds.displayScript, some aud,
              getRelatedVideoQueries gw ds.displayScript,
              analyzeAndSolve gw ds.displayScript⟩ now with
          | error e => simpa using hn
          | ok env2 => simpa using hn

/-! ## Claim theorems -/

/-- C1: computeContentHash is a pure, deterministic function — byte-identical
input strings yield identical fingerprints — it is defined on every string
including the empty one, and it always returns a 64-character lowercase
hexadecimal SHA-256 digest. -/
theorem C1_computeContentHash_spec (s t : String) (hst : s = t) :
    computeContentHash s = computeContentHash t ∧
    (computeContentHash s).length = 64 ∧
    ∀ c ∈ (computeContentHash s).data, c ∈ hexLowerDigits := by
  refine ⟨by rw [hst], ?_, ?_⟩
  · show ((sha256 (utf8Bytes s)).flatMap byteToHex).length = 64
    rw [length_flatMap_byteToHex, sha256_length]
  · intro c hc
    exact mem_flatMap_byteToHex hc

/-- Witness for C1, instantiated at the empty string. -/
theorem C1_computeContentHash_spec_witness :
    computeContentHash "" = computeContentHash "" ∧
    (computeContentHash "").length = 64 ∧
    ∀ c ∈ (computeContentHash "").data, c ∈ hexLowerDigits :=
  C1_computeContentHash_spec "" "" rfl

/-- C10: validateFile accepts a file (returns null) exactly when its MIME
type is one of the six accepted types and its size is at most
20 * 1024 * 1024 bytes; every other file receives a non-null error
message. -/
theorem C10_validateFile_accepts_iff (file : UploadedFile) :
    validateFile file = none ↔
      file.type ∈ validTypes ∧ file.size ≤ 20 * 1024 * 1024 := by
  unfold validateFile
  by_cases hT : file.type ∈ validTypes <;>
    by_cases hS : file.size ≤ 20 * 1024 * 1024 <;>
      simp [hT, hS]

/-- C3: the put/get round-trip law — saving a result under an id and then
reading that id back (with no intervening write to the id, and with the
storage layer not failing) returns exactly the stored result. -/
theorem C3_save_then_get (env : StoreEnv) (id : String)
    (result : ProcessingResult) (now : Nat)
    (hopen : env.openFails = false) (hput : env.putFails = false)
    (hget : env.getFails = false) :
    ∃ env', saveToCache env id result now = Except.ok env' ∧
      getFromCache env' id = Except.ok (some result) := by
  refine ⟨⟨putRecord env.recs ⟨id, now, result⟩, env.openFails, env.getFails,
    env.putFails, env.deleteFails, env.getAllFails⟩, ?_, ?_⟩
  · simp [saveToCache, hopen, hput]
  · have hfind := findRecord_putRecord env.recs ⟨id, now, result⟩
    simp [getFromCache, hopen, hget, hfind]

/-- Witness for C3 on an initially empty, healthy store. -/
theorem C3_save_then_get_witness :
    ∃ env', saveToCache ⟨[], false, false, false, false, false⟩ "id0"
        ⟨"s", none, [], []⟩ 7 = Except.ok env' ∧
      getFromCache env' "id0" = Except.ok (some ⟨"s", none, [], []⟩) :=
  C3_save_then_get ⟨[], false, false, false, false, false⟩ "id0"
    ⟨"s", none, [], []⟩ 7 rfl rfl rfl

/-- C9: deleting an id and then reading it returns absent, and deleting an
id that has no record is a no-op that still succeeds. -/
theorem C9_delete_then_get (env : StoreEnv) (id : String)
    (hopen : env.openFails = false) (hdel : env.deleteFails = false)
    (hget : env.getFails = false) :
    ∃ env', deleteFromCache env id = Except.ok env' ∧
      getFromCache env' id = Except.ok none ∧
      (findRecord env.recs id = none → env'.recs = env.recs) := by
  refine ⟨⟨env.recs.filter (fun it => it.id != id), env.openFails, env.getFails,
    env.putFails, env.deleteFails, env.getAllFails⟩, ?_, ?_, ?_⟩
  · simp [deleteFromCache, hopen, hdel]
  · have hfind := findRecord_filter_ne env.recs id
    simp [getFromCache, hopen, hget, hfind]
  · intro h
    exact filter_ne_of_not_found env.recs id h

/-- Witness for C9 on a healthy one-record store and an absent id. -/
theorem C9_delete_then_get_witness :
    ∃ env', deleteFromCache ⟨[⟨"other", 3, ⟨"s", none, [], []⟩⟩],
        false, false, false, false, false⟩ "gone" = Except.ok env' ∧
      getFromCache env' "gone" = Except.ok none ∧
      (findRecord [⟨"other", 3, ⟨"s", none, [], []⟩⟩] "gone" = none →
        env'.recs = [⟨"other", 3, ⟨"s", none, [], []⟩⟩]) :=
  C9_delete_then_get ⟨[⟨"other", 3, ⟨"s", none, [], []⟩⟩],
    false, false, false, false, false⟩ "gone" rfl rfl rfl

/-- C8 counterexample: on a store holding one record whose script has a
2-character first line but is 63 characters long in total, getHistory
produces the title with the ellipsis marker appended even though the
title was not truncated, so the ellipsis does not appear "exactly when
the title was truncated" as the claim states. -/
theorem C8_getHistory_counterexample :
    (getHistory ⟨[⟨"h1", 5,
        ⟨"ab\n012345678901234567890123456789012345678901234567890123456789",
         none, [], []⟩⟩], false, false, false, false, false⟩ =
      Except.ok [⟨"h1", 5, "ab..."⟩] ∧
    (firstLine
        "ab\n012345678901234567890123456789012345678901234567890123456789").length
      ≤ 60 ∧
    specTitle
        "ab\n012345678901234567890123456789012345678901234567890123456789"
      = "ab" ∧
    ("ab..." : String) ≠ "ab") ∧
    (getHistory ⟨[⟨"a", 7, ⟨"one", none, [], []⟩⟩,
        ⟨"b", 7, ⟨"two", none, [], []⟩⟩], false, false, false, false, false⟩ =
      Except.ok [⟨"a", 7, "one"⟩, ⟨"b", 7, "two"⟩] ∧
    ¬ List.Pairwise (fun x y => x.timestamp > y.timestamp)
        [(⟨"a", 7, "one"⟩ : HistoryEntry), ⟨"b", 7, "two"⟩]) := by
  constructor
  · refine ⟨?_, by decide, by decide, by decide⟩
    simp [getHistory, toHistoryEntry]
    decide
  · constructor
    · have hms : ([(⟨"a", 7, mkTitle "one"⟩ : HistoryEntry),
          ⟨"b", 7, mkTitle "two"⟩].mergeSort
            (fun a b => decide (b.timestamp ≤ a.timestamp))) =
          [⟨"a", 7, mkTitle "one"⟩, ⟨"b", 7, mkTitle "two"⟩] :=
        List.mergeSort_of_sorted (by decide)
      simp [getHistory, toHistoryEntry, hms]
      decide
    · decide

/-- C8 (amended): getHistory returns the records mapped to history
entries — id and timestamp taken from the record, title the first line
of the script truncated to 60 characters with an ellipsis marker
appended exactly when the WHOLE script is longer than 60 characters —
sorted by non-increasing timestamp. -/
theorem C8_getHistory_spec (env : StoreEnv)
    (hopen : env.openFails = false) (hall : env.getAllFails = false) :
    ∃ l, getHistory env = Except.ok l ∧
      l.Pairwise (fun a b => b.timestamp ≤ a.timestamp) ∧
      List.Perm l (env.recs.map toHistoryEntry) ∧
      ∀ e ∈ l, ∃ it ∈ env.recs, e.id = it.id ∧ e.timestamp = it.timestamp ∧
        e.title = truncate60 (firstLine it.data.script) ++
          (if it.data.script.length > 60 then "..." else "") := by
  refine ⟨(env.recs.map toHistoryEntry).mergeSort
      (fun a b => decide (b.timestamp ≤ a.timestamp)), ?_, ?_, ?_, ?_⟩
  · simp [getHistory, hopen, hall]
  · have hp : ((env.recs.map toHistoryEntry).mergeSort
        (fun a b => decide (b.timestamp ≤ a.timestamp))).Pairwise
          (fun a b => decide (b.timestamp ≤ a.timestamp) = true) := by
      refine List.sorted_mergeSort ?_ ?_ (env.recs.map toHistoryEntry)
      · intro a b c hab hbc
        simp only [decide_eq_true_eq] at *
        omega
      · intro a b
        rcases Nat.le_total a.timestamp b.timestamp with h | h <;> simp [h]
    refine hp.imp ?_
    intro a b h
    exact of_decide_eq_true h
  · exact List.mergeSort_perm (env.recs.map toHistoryEntry) _
  · intro e he
    have hmem : e ∈ env.recs.map toHistoryEntry := List.mem_mergeSort.mp he
    rcases List.mem_map.mp hmem with ⟨it, hit, rfl⟩
    exact ⟨it, hit, rfl, rfl, rfl⟩

/-- Witness for the amended C8 on a healthy two-record store. -/
theorem C8_getHistory_spec_witness :
    ∃ l, getHistory ⟨[⟨"h1", 5, ⟨"one", none, [], []⟩⟩,
        ⟨"h2", 9, ⟨"two", none, [], []⟩⟩], false, false, false, false, false⟩ =
        Except.ok l ∧
      l.Pairwise (fun a b => b.timestamp ≤ a.timestamp) ∧
      List.Perm l ([⟨"h1", 5, ⟨"one", none, [], []⟩⟩,
        ⟨"h2", 9, ⟨"two", none, [], []⟩⟩].map toHistoryEntry) ∧
      ∀ e ∈ l, ∃ it ∈ [⟨"h1", 5, ⟨"one", none, [], []⟩⟩,
          ⟨"h2", 9, ⟨"two", none, [], []⟩⟩],
        e.id = CachedItem.id it ∧ e.timestamp = CachedItem.timestamp it ∧
        e.title = truncate60 (firstLine (CachedItem.data it).script) ++
          (if (CachedItem.data it).script.length > 60 then "..." else "") :=
  C8_getHistory_spec ⟨[⟨"h1", 5, ⟨"one", none, [], []⟩⟩,
    ⟨"h2", 9, ⟨"two", none, [], []⟩⟩], false, false, false, false, false⟩ rfl rfl

/-- C2: when the submitted content's fingerprint already has a record in
the store, both pipeline flows yield the stored result unchanged, flagged
as a cache hit (Done), with the store untouched and no gateway operation
invoked; and a second submission of the same input after a successful
first run (on a healthy store) is served from the store and equals the
first run's result. -/
theorem C2_second_submission_from_store (gw gw2 : Gateway) (env : StoreEnv)
    (input : UserInput) (now now2 : Nat) (r res : ProcessingResult)
    (st : StoreEnv) (cc : CallCounts)
    (hopen : env.openFails = false) (hget : env.getFails = false)
    (hput : env.putFails = false) :
    (getFromCache env (computeContentHash (hashInput input)) =
        Except.ok (some r) →
      processContent gw env input now = ⟨RunOutcome.done r true, env, noCalls⟩) ∧
    (inputNonEmpty input = true →
      getFromCache env (computeContentHash (hashInputRaw input)) =
        Except.ok (some r) →
      handleProcess gw env input now = ⟨RunOutcome.done r true, env, noCalls⟩) ∧
    (processContent gw env input now = ⟨RunOutcome.done res false, st, cc⟩ →
      processContent gw2 st input now2 = ⟨RunOutcome.done res true, st, noCalls⟩) ∧
    (handleProcess gw env input now = ⟨RunOutcome.done res false, st, cc⟩ →
      handleProcess gw2 st input now2 = ⟨RunOutcome.done res true, st, noCalls⟩) := by
  refine ⟨?_, ?_, ?_, ?_⟩
  · intro hhit
    exact runPipeline_cache_hit gw env input _ now r hhit
  · intro hne hhit
    unfold handleProcess
    rw [hne]
    exact runPipeline_cache_hit gw env input _ now r hhit
  · intro hrun
    exact runPipeline_resubmit gw gw2 env input input _ now now2 res st cc
      hopen hget hput hrun
  · intro hrun
    unfold handleProcess at hrun ⊢
    cases hne : inputNonEmpty input with
    | false => rw [hne] at hrun; simp at hrun
    | true =>
      rw [hne] at hrun
      exact runPipeline_resubmit gw gw2 env input input _ now now2 res st cc
        hopen hget hput hrun

/-- Witness for C2: submitting a file whose fingerprint is already
stored is answered from the store with no gateway calls. -/
theorem C2_second_submission_from_store_witness :
    processContent gwAllGood envHit inputFile 3 =
      ⟨RunOutcome.done ⟨"cached", some "AA", [], []⟩ true, envHit, noCalls⟩ :=
  (C2_second_submission_from_store gwAllGood gwAllGood envHit inputFile 3 4
    ⟨"cached", some "AA", [], []⟩ ⟨"cached", some "AA", [], []⟩ envHit noCalls
    rfl rfl rfl).1 rfl

/-- C4 (the code contradicts the claim): when the IndexedDB get request
itself errors, getFromCache propagates a failure instead of degrading to
a miss, and when the put request errors, the whole pipeline run fails
with a store error and the computed in-memory result is NOT returned —
because both functions return the request promise from inside try/catch
without awaiting it, the rejection escapes the catch block.  Only the
openDB-failure paths behave as the claim states: a read degrades to a
miss, and a write failure is swallowed with the in-memory result still
returned (final two conjuncts). -/
theorem C4_store_failure_handling :
    getFromCache ⟨[], false, true, false, false, false⟩ "h" =
      Except.error StoreErr.storeFailure ∧
    (processContent gwAllGood ⟨[], false, false, true, false, false⟩
        inputFile 0).outcome = RunOutcome.failed PipelineError.storeFailure ∧
    getFromCache ⟨[], true, false, false, false, false⟩ "h" = Except.ok none ∧
    (processContent gwAllGood ⟨[], true, false, false, false, false⟩
        inputFile 0).outcome =
      RunOutcome.done ⟨"display", some "QUJD", [⟨"video", "query"⟩], [solOkay]⟩
        false ∧
    (processContent gwAllGood ⟨[], true, false, false, false, false⟩
        inputFile 0).store = ⟨[], true, false, false, false, false⟩ :=
  ⟨rfl, rfl, rfl, rfl, rfl⟩

/-- C5 counterexample: the primary transcription strategy fails with an
ordinary thrown error — a distinguishable outcome different from a
content-policy block — and generateReadingScript nevertheless retries
with the alternate strategy (two attempts, and the alternate's result is
returned), so the retry is not conditioned on a content-policy rejection
only. -/
theorem C5_retry_counterexample :
    gwPrimaryThrew.attempt1 ⟨"t", none, none⟩ = AttemptOutcome.threw ∧
    AttemptOutcome.threw ≠ AttemptOutcome.blocked ∧
    transcribeAttemptCount gwPrimaryThrew ⟨"t", none, none⟩ = 2 ∧
    generateReadingScript gwPrimaryThrew ⟨"t", none, none⟩ = Except.ok dsOkay :=
  ⟨rfl, by decide, rfl, rfl⟩

/-- C5 (amended): generateReadingScript retries exactly once with the
alternate strategy exactly when the primary attempt yields nothing —
whether a content-policy rejection, an empty response or an ordinary
failure, which the code cannot distinguish —; when both attempts yield
nothing it fails with the terminal transcription-failed error; when the
primary succeeds its result is used with a single attempt; and no other
operation is retried anywhere in either pipeline flow (per run at most
two transcription attempts and at most one solve, suggest and synthesis
call each). -/
theorem C5_transcription_retry_policy (gw : Gateway) (inp : TranscriptionInput)
    (env : StoreEnv) (input : UserInput) (now : Nat) :
    (transcribeAttemptCount gw inp = 2 ↔
      callGeminiWithPrompt (gw.attempt1 inp) = none) ∧
    (callGeminiWithPrompt (gw.attempt1 inp) = none →
      callGeminiWithPrompt (gw.attempt2 inp) = none →
      generateReadingScript gw inp =
        Except.error PipelineError.transcriptionFailed) ∧
    (∀ r, callGeminiWithPrompt (gw.attempt1 inp) = some r →
      generateReadingScript gw inp = Except.ok r ∧
      transcribeAttemptCount gw inp = 1) ∧
    ((processContent gw env input now).calls.transcribeAttempts ≤ 2 ∧
      (processContent gw env input now).calls.solveCalls ≤ 1 ∧
      (processContent gw env input now).calls.suggestCalls ≤ 1 ∧
      (processContent gw env input now).calls.synthCalls ≤ 1) ∧
    ((handleProcess gw env input now).calls.transcribeAttempts ≤ 2 ∧
      (handleProcess gw env input now).calls.solveCalls ≤ 1 ∧
      (handleProcess gw env input now).calls.suggestCalls ≤ 1 ∧
      (handleProcess gw env input now).calls.synthCalls ≤ 1) := by
  refine ⟨?_, ?_, ?_, ?_, ?_⟩
  · unfold transcribeAttemptCount
    cases callGeminiWithPrompt (gw.attempt1 inp) <;> simp
  · intro h1 h2
    unfold generateReadingScript
    rw [h1, h2]
  · intro r h
    unfold generateReadingScript transcribeAttemptCount
    rw [h]
    exact ⟨rfl, rfl⟩
  · exact runPipeline_call_bounds gw env input _ now
  · unfold handleProcess
    cases hne : inputNonEmpty input with
    | false => simp [noCalls]
    | true => exact runPipeline_call_bounds gw env input _ now

/-- Witness for the amended C5: with both strategies failing, the result
is the terminal transcription-failed error. -/
theorem C5_transcription_retry_policy_witness :
    generateReadingScript gwBothFail ⟨"t", none, none⟩ =
      Except.error PipelineError.transcriptionFailed :=
  (C5_transcription_retry_policy gwBothFail ⟨"t", none, none⟩ envEmpty
    inputFile 0).2.1 rfl rfl

/-- C6: when a fatal stage fails — transcription on both strategies, or
speech synthesis — each pipeline flow terminates with that single error
and leaves the store exactly as it was: no record is persisted for the
submitted content's fingerprint. -/
theorem C6_fatal_failure_leaves_store (gw : Gateway) (env : StoreEnv)
    (input : UserInput) (now : Nat) (ds : DualScriptResponse)
    (hmissP : getFromCache env (computeContentHash (hashInput input)) =
      Except.ok none)
    (hmissH : getFromCache env (computeContentHash (hashInputRaw input)) =
      Except.ok none) :
    (callGeminiWithPrompt (gw.attempt1 (transcriptionInputOf input)) = none →
      callGeminiWithPrompt (gw.attempt2 (transcriptionInputOf input)) = none →
      processContent gw env input now =
        ⟨RunOutcome.failed PipelineError.transcriptionFailed, env,
          ⟨2, 0, 0, 0⟩⟩ ∧
      (inputNonEmpty input = true →
        handleProcess gw env input now =
          ⟨RunOutcome.failed PipelineError.transcriptionFailed, env,
            ⟨2, 0, 0, 0⟩⟩)) ∧
    (generateReadingScript gw (transcriptionInputOf input) = Except.ok ds →
      gw.synthRaw ds.readingScript = none →
      processContent gw env input now =
        ⟨RunOutcome.failed PipelineError.synthesisFailed, env,
          ⟨transcribeAttemptCount gw (transcriptionInputOf input), 1, 1, 1⟩⟩ ∧
      (inputNonEmpty input = true →
        handleProcess gw env input now =
          ⟨RunOutcome.failed PipelineError.synthesisFailed, env,
            ⟨transcribeAttemptCount gw (transcriptionInputOf input),
             1, 1, 1⟩⟩)) := by
  constructor
  · intro h1 h2
    constructor
    · exact runPipeline_transcription_failed gw env input _ now hmissP h1 h2
    · intro hne
      unfold handleProcess
      rw [hne]
      exact runPipeline_transcription_failed gw env input _ now hmissH h1 h2
  · intro htr hsy
    constructor
    · exact runPipeline_synthesis_failed gw env input _ now ds htr hmissP hsy
    · intro hne
      unfold handleProcess
      rw [hne]
      exact runPipeline_synthesis_failed gw env input _ now ds htr hmissH hsy

/-- Witness for C6: both strategies fail on an empty healthy store; the
run reports the transcription failure and the store is unchanged. -/
theorem C6_fatal_failure_leaves_store_witness :
    processContent gwBothFail envEmpty inputFile 0 =
      ⟨RunOutcome.failed PipelineError.transcriptionFailed, envEmpty,
        ⟨2, 0, 0, 0⟩⟩ ∧
    (inputNonEmpty inputFile = true →
      handleProcess gwBothFail envEmpty inputFile 0 =
        ⟨RunOutcome.failed PipelineError.transcriptionFailed, envEmpty,
          ⟨2, 0, 0, 0⟩⟩) :=
  (C6_fatal_failure_leaves_store gwBothFail envEmpty inputFile 0 dsOkay
    rfl rfl).1 rfl rfl

/-- C7: a failing solve call degrades to an empty solution list and a
failing suggestion call degrades to an empty suggestion list inside the
service layer, and a run in which both fail still completes normally:
transcription, synthesis and persistence are unaffected and the result
simply carries the empty sequences. -/
theorem C7_nonfatal_stages_degrade (gw : Gateway) (script : String)
    (env : StoreEnv) (input : UserInput) (now : Nat)
    (ds : DualScriptResponse) (aud : String)
    (hopen : env.openFails = false) (hput : env.putFails = false) :
    (gw.solveRaw script = none → analyzeAndSolve gw script = []) ∧
    (gw.suggestRaw script = none → getRelatedVideoQueries gw script = []) ∧
    (getFromCache env (computeContentHash (hashInput input)) = Except.ok none →
      generateReadingScript gw (transcriptionInputOf input) = Except.ok ds →
      gw.synthRaw ds.readingScript = some aud →
      gw.solveRaw ds.displayScript = none →
      gw.suggestRaw ds.displayScript = none →
      (processContent gw env input now).outcome =
        RunOutcome.done ⟨ds.displayScript, some aud, [], []⟩ false) := by
  refine ⟨?_, ?_, ?_⟩
  · intro h
    simp [analyzeAndSolve, h]
  · intro h
    simp [getRelatedVideoQueries, h]
  · intro hmiss htr hsy hsol hsug
    have hrun := runPipeline_success gw env input
      (computeContentHash (hashInput input)) now ds aud hopen hput hmiss htr hsy
    unfold processContent
    rw [hrun]
    simp [analyzeAndSolve, getRelatedVideoQueries, hsol, hsug]

/-- Witness for C7: with solver and suggestion calls failing, the run
still completes with empty sequences. -/
theorem C7_nonfatal_stages_degrade_witness :
    (processContent gwNoExtras envEmpty inputFile 0).outcome =
      RunOutcome.done ⟨"display", some "QUJD", [], []⟩ false :=
  (C7_nonfatal_stages_degrade gwNoExtras "s" envEmpty inputFile 0 dsOkay "QUJD"
    rfl rfl).2.2 rfl rfl rfl rfl rfl

end GiaSu


